import Mathlib

/-!
# Verification of the Sequent Microsystems firmware interface

A shallow embedding of the board-capability dispatch and status-aggregation
layer of the repository (file `src/firmware_interface.py`, class
`SequentBoardInterface` and the command-line entry point `main`).

Modelling conventions:
* Python machine integers are modelled as `Int` (stack addresses and channel
  numbers come from `int()` parses and may be negative); driver bitmask reads
  are modelled as `Nat` (hardware masks are non-negative); Python floats are
  modelled as `Rat` (only order comparisons and exact constants occur).
* A Python exception is an `Except.error` carrying the exception message
  (`str(e)`); `try`/`except` blocks are translated to explicit matches.
* The vendor driver libraries are external to the repository, so they are
  modelled as oracles: an `Env` of read outcomes and write-failure outcomes
  per call, plus a `World` of per-channel hardware state threaded through
  the write operations together with a trace of every driver invocation.
* Functions that both mutate driver state and may raise are written in the
  monad `PyM α := World → Except String α × World` (state survives a raise,
  as in Python).
-/

/-- Generic JSON-like value, used for the dict results the adapter builds. -/
inductive Val where
  | vBool (b : Bool)
  | vInt (n : Int)
  | vRat (q : Rat)
  | vStr (s : String)
  | vNone
  | vObj (fields : List (String × Val))
  | vArr (elems : List Val)

/-- One driver invocation that writes to the hardware, with its arguments. -/
inductive CallEv where
  | setTriac (stack ch value : Int)
  | setUOut (stack ch : Int) (value : Rat)
  | relSet8 (stack ch value : Int)
  | relSet16 (stack ch value : Int)
  | setAll8 (stack value : Int)
  | setAll16 (stack value : Int)
  | writeU0_10Out (stack ch : Int) (value : Rat)
  deriving DecidableEq

/-- Hardware state: per-channel output maps for every board family, plus the
trace of driver write invocations issued so far. -/
structure World where
  calls : List CallEv
  triac : Int → Int → Int
  uout : Int → Int → Rat
  relay8 : Int → Int → Int
  relay16 : Int → Int → Int
  uout16 : Int → Int → Rat

/-- Point update of a two-argument state map. -/
def upd2 {α : Type} (f : Int → Int → α) (s c : Int) (v : α) : Int → Int → α :=
  fun s' c' => if s' = s ∧ c' = c then v else f s' c'

/-- The effect monad for the Python code: driver state threading plus
exceptions.  An exception does not roll back state already written. -/
def PyM (α : Type) : Type := World → Except String α × World

def PyM.pure {α : Type} (a : α) : PyM α := fun w => (.ok a, w)

def PyM.bind {α β : Type} (x : PyM α) (f : α → PyM β) : PyM β := fun w =>
  match x w with
  | (.ok a, w') => f a w'
  | (.error e, w') => (.error e, w')

instance : Monad PyM where
  pure := PyM.pure
  bind := PyM.bind

/-- Translation of a Python `try: ... except Exception as e: ...` block. -/
def PyM.tryCatch {α : Type} (x : PyM α) (h : String → PyM α) : PyM α := fun w =>
  match x w with
  | (.ok a, w') => (.ok a, w')
  | (.error e, w') => h e w'

/-- A stateless fallible computation run inside the stateful code. -/
def liftE {α : Type} (x : Except String α) : PyM α := fun w => (x, w)

/-- Oracles standing for the imported vendor driver libraries: which of the
five libraries imported successfully, the outcome of every read call, and
the failure outcome (an exception message, or `none` for success) of every
write call. -/
structure Env where
  hasMegabas : Bool
  has8relind : Bool
  has16relind : Bool
  has16univin : Bool
  has16uout : Bool
  -- megabas reads
  getVer : Int → Except String String
  getTriacs : Int → Except String Nat
  getUOut : Int → Int → Except String Rat
  getUIn : Int → Int → Except String Rat
  getRIn1K : Int → Int → Except String Rat
  getRIn10K : Int → Int → Except String Rat
  getContact : Int → Except String Nat
  getContactCh : Int → Int → Except String Int
  getContactCounter : Int → Int → Except String Int
  getContactCountEdge : Int → Int → Except String Int
  getInVolt : Int → Except String Rat
  getRaspVolt : Int → Except String Rat
  getCpuTemp : Int → Except String Rat
  rtcGet : Int → Except String (List Int)
  wdtGetPeriod : Int → Except String Int
  wdtGetDefaultPeriod : Int → Except String Int
  wdtGetOffInterval : Int → Except String Int
  wdtGetResetCount : Int → Except String Int
  -- relay board reads (integer bitmask of all channels)
  relGet8 : Int → Except String Nat
  relGet16 : Int → Except String Nat
  -- 16univin reads, with the hasattr probes for the optional functions
  readU0_10In : Int → Int → Except String Rat
  hasReadR1kIn : Bool
  readR1kIn : Int → Int → Except String Rat
  hasReadR10kIn : Bool
  readR10kIn : Int → Int → Except String Rat
  -- 16uout read
  readU0_10Out16 : Int → Int → Except String Rat
  -- write failure oracles
  setUOutFail : Int → Int → Rat → Option String
  setTriacFail : Int → Int → Int → Option String
  relSet8Fail : Int → Int → Int → Option String
  relSet16Fail : Int → Int → Int → Option String
  setAll8Fail : Int → Int → Option String
  setAll16Fail : Int → Int → Option String
  writeU0_10OutFail : Int → Int → Rat → Option String

/-- Membership test of the `boards_available` dict: a key is present exactly
when the corresponding vendor library imported successfully.  Only the five
known keys can ever be present. -/
def Env.hasBoard (env : Env) (bt : String) : Bool :=
  if bt = "megabas" then env.hasMegabas
  else if bt = "8relind" then env.has8relind
  else if bt = "16relind" then env.has16relind
  else if bt = "16univin" then env.has16univin
  else if bt = "16uout" then env.has16uout
  else false

/-- One concrete driver write: the trace event recorded, the failure oracle
outcome for this call, and the state update applied when it succeeds. -/
structure DrvCall where
  ev : CallEv
  fail : Option String
  upd : World → World

/-- Issue one driver write: the invocation is recorded in the trace even when
it raises; on success the hardware state update is applied. -/
def runCall (c : DrvCall) : PyM Unit := fun w =>
  let w1 : World := { w with calls := w.calls ++ [c.ev] }
  match c.fail with
  | some e => (.error e, w1)
  | none => (.ok (), c.upd w1)

/-- Issue a sequence of driver writes, stopping at the first raise. -/
def runCalls : List DrvCall → PyM Unit
  | [] => PyM.pure ()
  | c :: cs => fun w =>
    match runCall c w with
    | (.ok _, w') => runCalls cs w'
    | (.error e, w') => (.error e, w')

/-- First failing call of a sequence, if any (its exception message). -/
def firstFail : List DrvCall → Option String
  | [] => none
  | c :: cs =>
    match c.fail with
    | some e => some e
    | none => firstFail cs

def setTriacCall (env : Env) (stack ch value : Int) : DrvCall :=
  { ev := .setTriac stack ch value
    fail := env.setTriacFail stack ch value
    upd := fun w => { w with triac := upd2 w.triac stack ch value } }

def setUOutCall (env : Env) (stack ch : Int) (value : Rat) : DrvCall :=
  { ev := .setUOut stack ch value
    fail := env.setUOutFail stack ch value
    upd := fun w => { w with uout := upd2 w.uout stack ch value } }

def relSet8Call (env : Env) (stack ch value : Int) : DrvCall :=
  { ev := .relSet8 stack ch value
    fail := env.relSet8Fail stack ch value
    upd := fun w => { w with relay8 := upd2 w.relay8 stack ch value } }

def relSet16Call (env : Env) (stack ch value : Int) : DrvCall :=
  { ev := .relSet16 stack ch value
    fail := env.relSet16Fail stack ch value
    upd := fun w => { w with relay16 := upd2 w.relay16 stack ch value } }

/-- `set_all(stack, value)` with `value = 0` drives every relay of the stack
to `value`; the emergency stop only ever calls it with 0. -/
def setAll8Call (env : Env) (stack value : Int) : DrvCall :=
  { ev := .setAll8 stack value
    fail := env.setAll8Fail stack value
    upd := fun w =>
      { w with relay8 := fun s c => if s = stack then value else w.relay8 s c } }

def setAll16Call (env : Env) (stack value : Int) : DrvCall :=
  { ev := .setAll16 stack value
    fail := env.setAll16Fail stack value
    upd := fun w =>
      { w with relay16 := fun s c => if s = stack then value else w.relay16 s c } }

def writeU0_10OutCall (env : Env) (stack ch : Int) (value : Rat) : DrvCall :=
  { ev := .writeU0_10Out stack ch value
    fail := env.writeU0_10OutFail stack ch value
    upd := fun w => { w with uout16 := upd2 w.uout16 stack ch value } }

/-! ## Board registry (`self.board_configs`) -/

/-- One entry of `board_configs`; absent dict keys are `none`. -/
structure BoardConfig where
  description : String
  triacs : Option Nat := none
  analog_outputs : Option Nat := none
  configurable_inputs : Option Nat := none
  relays : Option Nat := none
  universal_inputs : Option Nat := none
  has_rtc : Option Bool := none
  has_watchdog : Option Bool := none
  power_monitoring : Option Bool := none
  has_rs485 : Option Bool := none
  has_leds : Option Nat := none
  deriving DecidableEq

/-- The static capability registry built in `SequentBoardInterface.__init__`. -/
def board_configs (bt : String) : Option BoardConfig :=
  if bt = "megabas" then
    some { description := "Building Automation System board"
           triacs := some 4
           analog_outputs := some 4
           configurable_inputs := some 8
           has_rtc := some true
           has_watchdog := some true
           power_monitoring := some true }
  else if bt = "8relind" then
    some { description := "8 Industrial Relay board", relays := some 8 }
  else if bt = "16relind" then
    some { description := "16 Industrial Relay board", relays := some 16 }
  else if bt = "16univin" then
    some { description := "16 Universal INPUT board"
           universal_inputs := some 16
           has_rtc := some true
           has_rs485 := some true
           has_leds := some 16 }
  else if bt = "16uout" then
    some { description := "16 Universal OUTPUT board"
           analog_outputs := some 16
           has_rs485 := some true
           has_leds := some 16 }
  else none

/-! ## Bitmask unpacking -/

/-- The unpacking loop shared by the relay-status and triac-status reads:
`for ch in range(1, n + 1): out[ch] = bool(mask & (1 << (ch - 1)))`. -/
def unpackMask (mask : Nat) (n : Nat) : List Bool :=
  (List.range' 1 n).map (fun ch => (mask &&& (1 <<< (ch - 1))) != 0)

/-! ## Discovery (`scan_boards`) -/

/-- A discovered board, as recorded by `scan_boards`. -/
structure BoardInstance where
  btype : String
  stack : Int
  name : String
  version : String
  deriving DecidableEq

/-- The human-readable name given to a discovered board. -/
def nameOf (bt : String) (stack : Int) : String :=
  if bt = "megabas" then "MegaBAS Stack " ++ toString stack
  else if bt = "8relind" then "8-Relay Stack " ++ toString stack
  else if bt = "16relind" then "16-Relay Stack " ++ toString stack
  else if bt = "16univin" then "16-UnivIn Stack " ++ toString stack
  else if bt = "16uout" then "16-UOut Stack " ++ toString stack
  else ""

/-- Probe outcome for one board type at one stack address: `some version`
when the board type has a driver and the cheap probe call succeeds
(`getVer` for megabas, `get` for the relay boards, a channel-1 read for the
universal boards), `none` when the driver is missing or the probe raises. -/
def probeVersion (env : Env) (bt : String) (stack : Int) : Option String :=
  if bt = "megabas" then
    if env.hasMegabas then
      match env.getVer stack with
      | .ok v => some v
      | .error _ => none
    else none
  else if bt = "8relind" then
    if env.has8relind then
      match env.relGet8 stack with
      | .ok _ => some "Unknown"
      | .error _ => none
    else none
  else if bt = "16relind" then
    if env.has16relind then
      match env.relGet16 stack with
      | .ok _ => some "Unknown"
      | .error _ => none
    else none
  else if bt = "16univin" then
    if env.has16univin then
      match env.readU0_10In stack 1 with
      | .ok _ => some "Unknown"
      | .error _ => none
    else none
  else if bt = "16uout" then
    if env.has16uout then
      match env.readU0_10Out16 stack 1 with
      | .ok _ => some "Unknown"
      | .error _ => none
    else none
  else none

/-- The `BoardInstance` appended by a successful probe. -/
def probe (env : Env) (bt : String) (stack : Int) : Option BoardInstance :=
  (probeVersion env bt stack).map (fun v => ⟨bt, stack, nameOf bt stack, v⟩)

/-- The order in which the probe blocks appear in the body of the scan loop. -/
def boardOrder : List String :=
  ["megabas", "8relind", "16relind", "16univin", "16uout"]

/-- The candidate stack addresses, `range(8)`. -/
def stacks8 : List Int := [0, 1, 2, 3, 4, 5, 6, 7]

/-- `scan_boards`: for every stack level 0-7 and every board type with an
available driver, probe and record the board on success; a probe exception
means absent and the scan continues. -/
def scan_boards (env : Env) : List BoardInstance :=
  stacks8.flatMap (fun stack => boardOrder.filterMap (fun bt => probe env bt stack))

/-! ## MegaBAS status (`get_megabas_status`) -/

/-- `mapE l f` is the translation of a `for` loop accumulating one value per
channel, aborting at the first exception. -/
def mapE {α β : Type} : List α → (α → Except String β) → Except String (List β)
  | [], _ => .ok []
  | a :: as, f => do
    let b ← f a
    let bs ← mapE as f
    .ok (b :: bs)

/-- Python list indexing `l[i]`: raises `IndexError` when out of range. -/
def pyIndex {α : Type} (l : List α) (i : Nat) : Except String α :=
  match l.get? i with
  | some a => .ok a
  | none => .error "list index out of range"

def chan4 : List Int := [1, 2, 3, 4]
def chan8i : List Int := [1, 2, 3, 4, 5, 6, 7, 8]
def chan16 : List Int := [1, 2, 3, 4, 5, 6, 7, 8, 9, 10, 11, 12, 13, 14, 15, 16]

/-- The RTC sub-read: `rtcGet` followed by the six list indexings. -/
def rtcRead (env : Env) (stack : Int) :
    Except String (Int × Int × Int × Int × Int × Int) := do
  let d ← env.rtcGet stack
  let y ← pyIndex d 0
  let mo ← pyIndex d 1
  let da ← pyIndex d 2
  let h ← pyIndex d 3
  let mi ← pyIndex d 4
  let s ← pyIndex d 5
  .ok (y, mo, da, h, mi, s)

/-- The watchdog sub-read: the four `wdt*` getters, in source order. -/
def wdtRead (env : Env) (stack : Int) : Except String (Int × Int × Int × Int) := do
  let p ← env.wdtGetPeriod stack
  let dp ← env.wdtGetDefaultPeriod stack
  let oi ← env.wdtGetOffInterval stack
  let rc ← env.wdtGetResetCount stack
  .ok (p, dp, oi, rc)

/-- `try: x except: pass` around an optional sub-read: the value is kept on
success and the field is left at its initial empty value on failure. -/
def tryOpt {α : Type} (x : Except String α) : Option α :=
  match x with
  | .ok a => some a
  | .error _ => none

/-- The successful-status dict of `get_megabas_status`; `rtc`/`watchdog` are
`none` when the corresponding optional sub-read failed (the field keeps its
initial `None`/`{}` value). -/
structure MegabasStatus where
  stack : Int
  firmware : String
  triacs : List Bool
  analog_outputs : List Rat
  configurable_inputs : List (Rat × Rat × Rat)
  dry_contacts : List (Int × Int × Int)
  sensors : Rat × Rat × Rat
  rtc : Option (Int × Int × Int × Int × Int × Int)
  watchdog : Option (Int × Int × Int × Int)
  deriving DecidableEq

/-- Result dict of `get_megabas_status`: a status object or `{error: msg}`. -/
inductive MbResult where
  | status (st : MegabasStatus)
  | err (msg : String)
  deriving DecidableEq

/-- Body of the outer `try` of `get_megabas_status`, in source order. -/
def mbStatusBody (env : Env) (stack : Int) : Except String MegabasStatus := do
  let fw ← env.getVer stack
  let tmask ← env.getTriacs stack
  let aouts ← mapE chan4 (fun ch => env.getUOut stack ch)
  let cins ← mapE chan8i (fun ch => do
    let v ← env.getUIn stack ch
    let r1 ← env.getRIn1K stack ch
    let r10 ← env.getRIn10K stack ch
    .ok (v, r1, r10))
  let _ ← env.getContact stack
  let dcs ← mapE chan8i (fun ch => do
    let st ← env.getContactCh stack ch
    let cnt ← env.getContactCounter stack ch
    let em ← env.getContactCountEdge stack ch
    .ok (st, cnt, em))
  let pv ← env.getInVolt stack
  let rv ← env.getRaspVolt stack
  let ct ← env.getCpuTemp stack
  .ok { stack := stack
        firmware := fw
        triacs := unpackMask tmask 4
        analog_outputs := aouts
        configurable_inputs := cins
        dry_contacts := dcs
        sensors := (pv, rv, ct)
        rtc := tryOpt (rtcRead env stack)
        watchdog := tryOpt (wdtRead env stack) }

/-- `get_megabas_status`.  The outer `Except` layer is exception propagation
out of the Python function; the adapter catches everything, so it is proved
to always be `.ok`. -/
def get_megabas_status (env : Env) (stack : Int) : Except String MbResult :=
  if env.hasMegabas = false then .ok (.err "MegaBAS library not available")
  else
    .ok (match mbStatusBody env stack with
      | .ok st => .status st
      | .error e => .err e)

/-! ## Relay status (`get_relay_status`) -/

/-- Result dict of `get_relay_status`. -/
inductive RelayResult where
  | status (btype : String) (stack : Int) (relays : List Bool)
  | err (msg : String)
  deriving DecidableEq

/-- `get_relay_status`: unpack the integer bitmask returned by the driver
into per-channel booleans; a board type that is neither relay board leaves
the `relays` dict empty. -/
def get_relay_status (env : Env) (board_type : String) (stack : Int) :
    Except String RelayResult :=
  if env.hasBoard board_type = false then
    .ok (.err (board_type ++ " library not available"))
  else
    .ok (match (do
        if board_type = "8relind" then
          let mask ← env.relGet8 stack
          .ok (unpackMask mask 8)
        else if board_type = "16relind" then
          let mask ← env.relGet16 stack
          .ok (unpackMask mask 16)
        else
          .ok ([] : List Bool) : Except String (List Bool)) with
      | .ok relays => .status board_type stack relays
      | .error e => .err e)

/-! ## Output operations -/

/-- `{"error": msg}`. -/
def errVal (msg : String) : Val := .vObj [("error", .vStr msg)]

/-- Python `int()` truncation (toward zero) of a float value. -/
def pyTrunc (q : Rat) : Int :=
  if q < 0 then -((-q).floor) else q.floor

/-- `set_megabas_output`: validate-then-write for the analog and triac
outputs of the MegaBAS board. -/
def set_megabas_output (env : Env) (stack : Int) (output_type : String)
    (channel : Int) (value : Rat) : PyM Val :=
  if env.hasMegabas = false then PyM.pure (errVal "MegaBAS library not available")
  else
    PyM.tryCatch
      (if output_type = "analog" then
        if channel < 1 ∨ channel > 4 then
          PyM.pure (errVal ("Invalid analog channel: " ++ toString channel ++
            ". MegaBAS has 4 analog outputs (1-4)"))
        else if value < 0 ∨ value > 10 then
          PyM.pure (errVal ("Invalid voltage: " ++ toString value ++ ". Range is 0-10V"))
        else do
          runCall (setUOutCall env stack channel value)
          PyM.pure (.vObj [("success", .vBool true), ("channel", .vInt channel),
            ("value", .vRat value)])
      else if output_type = "triac" then
        if channel < 1 ∨ channel > 4 then
          PyM.pure (errVal ("Invalid triac channel: " ++ toString channel ++
            ". MegaBAS has 4 triacs (1-4)"))
        else do
          runCall (setTriacCall env stack channel (pyTrunc value))
          PyM.pure (.vObj [("success", .vBool true), ("channel", .vInt channel),
            ("value", .vBool (decide (value ≠ 0)))])
      else
        PyM.pure (errVal ("Unknown output type: " ++ output_type ++
          ". Use analog or triac")))
      (fun e => PyM.pure (errVal e))

/-- `set_relay`: validate-then-write for the two relay boards; any other
available board type skips both branches and reaches the shared success
return without validating or writing. -/
def set_relay (env : Env) (board_type : String) (stack channel : Int)
    (state : Bool) : PyM Val :=
  if env.hasBoard board_type = false then
    PyM.pure (errVal (board_type ++ " library not available"))
  else
    PyM.tryCatch
      (if board_type = "8relind" then
        if channel < 1 ∨ channel > 8 then
          PyM.pure (errVal ("Invalid relay channel: " ++ toString channel ++
            ". 8relind has 8 relays (1-8)"))
        else do
          runCall (relSet8Call env stack channel (if state then 1 else 0))
          PyM.pure (.vObj [("success", .vBool true), ("channel", .vInt channel),
            ("state", .vBool state)])
      else if board_type = "16relind" then
        if channel < 1 ∨ channel > 16 then
          PyM.pure (errVal ("Invalid relay channel: " ++ toString channel ++
            ". 16relind has 16 relays (1-16)"))
        else do
          runCall (relSet16Call env stack channel (if state then 1 else 0))
          PyM.pure (.vObj [("success", .vBool true), ("channel", .vInt channel),
            ("state", .vBool state)])
      else
        PyM.pure (.vObj [("success", .vBool true), ("channel", .vInt channel),
          ("state", .vBool state)]))
      (fun e => PyM.pure (errVal e))

/-- Result dict of `get_universal_input`. -/
inductive UnivInResult where
  | ok (channel : Int) (voltage : Rat) (r1k r10k : Option Rat)
  | err (msg : String)
  deriving DecidableEq

/-- `get_universal_input`: one channel of the input-only 16univin board. -/
def get_universal_input (env : Env) (stack channel : Int) :
    Except String UnivInResult :=
  if env.has16univin = false then .ok (.err "16univin library not available")
  else
    .ok (match (do
        if channel < 1 ∨ channel > 16 then
          .ok (UnivInResult.err ("Invalid channel: " ++ toString channel ++
            ". 16univin has 16 inputs (1-16)"))
        else do
          let v ← env.readU0_10In stack channel
          let r1 ← if env.hasReadR1kIn then
              (env.readR1kIn stack channel).map some
            else .ok none
          let r10 ← if env.hasReadR10kIn then
              (env.readR10kIn stack channel).map some
            else .ok none
          .ok (UnivInResult.ok channel v r1 r10) : Except String UnivInResult) with
      | .ok r => r
      | .error e => .err e)

/-- `set_universal_output`: validate-then-write for one channel of the
output-only 16uout board. -/
def set_universal_output (env : Env) (stack channel : Int) (value : Rat) :
    PyM Val :=
  if env.has16uout = false then PyM.pure (errVal "16uout library not available")
  else
    PyM.tryCatch
      (if channel < 1 ∨ channel > 16 then
        PyM.pure (errVal ("Invalid channel: " ++ toString channel ++
          ". 16uout has 16 outputs (1-16)"))
      else if value < 0 ∨ value > 10 then
        PyM.pure (errVal ("Invalid voltage: " ++ toString value ++ ". Range is 0-10V"))
      else do
        runCall (writeU0_10OutCall env stack channel value)
        PyM.pure (.vObj [("success", .vBool true), ("channel", .vInt channel),
          ("value", .vRat value), ("type", .vStr "0-10V Output")]))
      (fun e => PyM.pure (errVal e))

/-! ## Emergency stop -/

def stoppedEntry (b : String) : Val :=
  .vObj [("board", .vStr b), ("status", .vStr "stopped")]

def errEntry (b msg : String) : Val :=
  .vObj [("board", .vStr b), ("error", .vStr msg)]

/-- The write sequence the stop loop issues for one MegaBAS board: all four
triacs off, then all four analog outputs to 0. -/
def mbStopCalls (env : Env) (stack : Int) : List DrvCall :=
  chan4.map (fun ch => setTriacCall env stack ch 0) ++
    chan4.map (fun ch => setUOutCall env stack ch 0)

/-- The write sequence for one 16uout board: all sixteen outputs to 0. -/
def uout16StopCalls (env : Env) (stack : Int) : List DrvCall :=
  chan16.map (fun ch => writeU0_10OutCall env stack ch 0)

/-- The per-board body of the emergency-stop loop: each board type with
controllable outputs appends exactly one entry (stopped or a per-board
error); the input-only 16univin matches no branch and appends nothing. -/
def stopEntries (env : Env) (b : BoardInstance) : PyM (List Val) :=
  PyM.tryCatch
    (if b.btype = "megabas" then do
      runCalls (mbStopCalls env b.stack)
      PyM.pure [stoppedEntry ("megabas_" ++ toString b.stack)]
    else if b.btype = "8relind" then do
      runCall (setAll8Call env b.stack 0)
      PyM.pure [stoppedEntry ("8relind_" ++ toString b.stack)]
    else if b.btype = "16relind" then do
      runCall (setAll16Call env b.stack 0)
      PyM.pure [stoppedEntry ("16relind_" ++ toString b.stack)]
    else if b.btype = "16uout" then do
      runCalls (uout16StopCalls env b.stack)
      PyM.pure [stoppedEntry ("16uout_" ++ toString b.stack)]
    else PyM.pure [])
    (fun e => PyM.pure [errEntry (b.btype ++ "_" ++ toString b.stack) e])

/-- The loop of `emergency_stop` over the discovered boards, in order. -/
def goBoards (env : Env) : List BoardInstance → PyM (List Val)
  | [] => PyM.pure []
  | b :: bs => do
    let es ← stopEntries env b
    let rest ← goBoards env bs
    PyM.pure (es ++ rest)

/-- `emergency_stop`: rescan, then drive every discovered board's outputs to
the off state, tolerating per-board failures. -/
def emergency_stop (env : Env) : PyM Val := do
  let results ← goBoards env (scan_boards env)
  PyM.pure (.vObj [("emergency_stop", .vBool true), ("results", .vArr results)])

/-- The single result entry the stop loop produces for one discovered board,
as a pure function of the write-failure oracles (`[]` for the input-only
16univin board). -/
def stopOutcome (env : Env) (b : BoardInstance) : List Val :=
  if b.btype = "megabas" then
    match firstFail (mbStopCalls env b.stack) with
    | none => [stoppedEntry ("megabas_" ++ toString b.stack)]
    | some e => [errEntry (b.btype ++ "_" ++ toString b.stack) e]
  else if b.btype = "8relind" then
    match env.setAll8Fail b.stack 0 with
    | none => [stoppedEntry ("8relind_" ++ toString b.stack)]
    | some e => [errEntry (b.btype ++ "_" ++ toString b.stack) e]
  else if b.btype = "16relind" then
    match env.setAll16Fail b.stack 0 with
    | none => [stoppedEntry ("16relind_" ++ toString b.stack)]
    | some e => [errEntry (b.btype ++ "_" ++ toString b.stack) e]
  else if b.btype = "16uout" then
    match firstFail (uout16StopCalls env b.stack) with
    | none => [stoppedEntry ("16uout_" ++ toString b.stack)]
    | some e => [errEntry (b.btype ++ "_" ++ toString b.stack) e]
  else []

/-! ## Command dispatcher (`main`) -/

/-- Do all characters spell a decimal digit? -/
def allDigits (cs : List Char) : Bool := cs.all Char.isDigit

/-- Value of a digit string. -/
def digitsToNat (cs : List Char) : Nat :=
  cs.foldl (fun n c => n * 10 + (c.toNat - 48)) 0

/-- Python `int(s)`: optional sign followed by at least one digit, else
`ValueError`. -/
def pyInt (s : String) : Except String Int :=
  let body : List Char → Option Nat := fun cs =>
    if cs = [] then none
    else if allDigits cs then some (digitsToNat cs) else none
  let r : Option Int :=
    match s.toList with
    | '-' :: rest => (body rest).map (fun n => -(n : Int))
    | '+' :: rest => (body rest).map (fun n => (n : Int))
    | cs => (body cs).map (fun n => (n : Int))
  match r with
  | some n => .ok n
  | none => .error ("invalid literal for int() with base 10: " ++ s)

/-- Segments of a character list split at every dot (mirrors
`str.split(".")`). -/
def splitOnDot : List Char → List (List Char)
  | [] => [[]]
  | c :: cs =>
    if c = '.' then [] :: splitOnDot cs
    else
      match splitOnDot cs with
      | [] => [[c]]
      | p :: ps => (c :: p) :: ps

/-- Python `float(s)` on plain decimal literals: optional sign, digits with
an optional fractional part; anything else raises `ValueError`. -/
def pyFloat (s : String) : Except String Rat :=
  let err : Except String Rat :=
    .error ("could not convert string to float: " ++ s)
  let withSign : Rat × List Char :=
    match s.toList with
    | '-' :: rest => (-1, rest)
    | '+' :: rest => (1, rest)
    | cs => (1, cs)
  match splitOnDot withSign.2 with
  | [a] =>
    if a = [] then err
    else if allDigits a then .ok (withSign.1 * (digitsToNat a : Rat)) else err
  | [a, b] =>
    if a = [] ∧ b = [] then err
    else if allDigits a ∧ allDigits b then
      .ok (withSign.1 * ((digitsToNat a : Rat)
        + (digitsToNat b : Rat) / ((10 : Rat) ^ b.length)))
    else err
  | _ => err

/-- The JSON document one invocation prints: each command's result in its
own shape, plus the two envelopes `main` itself produces. -/
inductive CmdOut where
  | scanOut (boards : List BoardInstance)
  | infoOut
  | mbOut (r : MbResult)
  | relayOut (r : RelayResult)
  | univinOut (r : UnivInResult)
  | valOut (v : Val)
  | errEnvelope (msg : String)
  | noCommand

/-- What the process does on exit: print a JSON document and exit with the
given code, or die with a non-JSON message (an uncaught traceback). -/
inductive ProcOut where
  | jsonOut (r : CmdOut) (exitCode : Nat)
  | crash (msg : String)

/-- The body of the `try` block of `main`: dispatch on `argv[1]` (here the
head of `argv`, which stands for `sys.argv[1:]`), parsing positional
arguments with `int()`/`float()` — parses that can raise. -/
def mainBody (env : Env) (argv : List String) : PyM CmdOut :=
  let command := argv.headD ""
  if command = "scan" then PyM.pure (.scanOut (scan_boards env))
  else if command = "info" then PyM.pure .infoOut
  else if command = "status" then
    if argv.length < 3 then
      PyM.pure (.valOut (errVal "Usage: status <board_type> <stack>"))
    else do
      let board_type := argv.getD 1 ""
      let stack ← liftE (pyInt (argv.getD 2 ""))
      if board_type = "megabas" then do
        let r ← liftE (get_megabas_status env stack)
        PyM.pure (.mbOut r)
      else if board_type = "8relind" ∨ board_type = "16relind" then do
        let r ← liftE (get_relay_status env board_type stack)
        PyM.pure (.relayOut r)
      else PyM.pure (.valOut (errVal ("Unknown board type: " ++ board_type)))
  else if command = "set_output" then
    if argv.length < 5 then
      PyM.pure (.valOut (errVal "Usage: set_output <stack> <type> <channel> <value>"))
    else do
      let stack ← liftE (pyInt (argv.getD 1 ""))
      let output_type := argv.getD 2 ""
      let channel ← liftE (pyInt (argv.getD 3 ""))
      let value ← liftE (if output_type = "analog" then pyFloat (argv.getD 4 "")
        else (pyInt (argv.getD 4 "")).map (fun n => (n : Rat)))
      let r ← set_megabas_output env stack output_type channel value
      PyM.pure (.valOut r)
  else if command = "set_relay" then
    if argv.length < 5 then
      PyM.pure (.valOut (errVal "Usage: set_relay <board_type> <stack> <channel> <state>"))
    else do
      let board_type := argv.getD 1 ""
      let stack ← liftE (pyInt (argv.getD 2 ""))
      let channel ← liftE (pyInt (argv.getD 3 ""))
      let stInt ← liftE (pyInt (argv.getD 4 ""))
      let r ← set_relay env board_type stack channel (decide (stInt ≠ 0))
      PyM.pure (.valOut r)
  else if command = "read_univin" then
    if argv.length < 3 then
      PyM.pure (.valOut (errVal "Usage: read_univin <stack> <channel>"))
    else do
      let stack ← liftE (pyInt (argv.getD 1 ""))
      let channel ← liftE (pyInt (argv.getD 2 ""))
      let r ← liftE (get_universal_input env stack channel)
      PyM.pure (.univinOut r)
  else if command = "set_univout" then
    if argv.length < 4 then
      PyM.pure (.valOut (errVal "Usage: set_univout <stack> <channel> <value>"))
    else do
      let stack ← liftE (pyInt (argv.getD 1 ""))
      let channel ← liftE (pyInt (argv.getD 2 ""))
      let value ← liftE (pyFloat (argv.getD 3 ""))
      let r ← set_universal_output env stack channel value
      PyM.pure (.valOut r)
  else if command = "emergency_stop" then do
    let r ← emergency_stop env
    PyM.pure (.valOut r)
  else PyM.pure (.valOut (errVal ("Unknown command: " ++ command)))

/-- One whole process invocation (`argv` stands for `sys.argv[1:]`): the
missing-command check, then the `try` block around dispatch-and-print, whose
`except` prints `{"error": str(e)}` and exits 1. -/
def mainRun (env : Env) (argv : List String) (w : World) : ProcOut × World :=
  if argv = [] then (.jsonOut .noCommand 1, w)
  else
    match mainBody env argv w with
    | (.ok r, w') => (.jsonOut r 0, w')
    | (.error e, w') => (.jsonOut (.errEnvelope e) 1, w')

/-! ## Concrete environments and worlds for witnesses and counterexamples -/

/-- Hardware state with an empty trace and all outputs at 0. -/
def w0 : World :=
  { calls := []
    triac := fun _ _ => 0
    uout := fun _ _ => 0
    relay8 := fun _ _ => 0
    relay16 := fun _ _ => 0
    uout16 := fun _ _ => 0 }

/-- A fully operational driver environment: every library imported, every
read succeeds with a fixed value, every write succeeds. -/
def okEnv : Env :=
  { hasMegabas := true
    has8relind := true
    has16relind := true
    has16univin := true
    has16uout := true
    getVer := fun _ => .ok "4.09"
    getTriacs := fun _ => .ok 5
    getUOut := fun _ _ => .ok 3
    getUIn := fun _ _ => .ok 2
    getRIn1K := fun _ _ => .ok 100
    getRIn10K := fun _ _ => .ok 1000
    getContact := fun _ => .ok 0
    getContactCh := fun _ _ => .ok 1
    getContactCounter := fun _ _ => .ok 7
    getContactCountEdge := fun _ _ => .ok 0
    getInVolt := fun _ => .ok 24
    getRaspVolt := fun _ => .ok 5
    getCpuTemp := fun _ => .ok 45
    rtcGet := fun _ => .ok [2025, 10, 12, 9, 30, 0]
    wdtGetPeriod := fun _ => .ok 10
    wdtGetDefaultPeriod := fun _ => .ok 60
    wdtGetOffInterval := fun _ => .ok 5
    wdtGetResetCount := fun _ => .ok 2
    relGet8 := fun _ => .ok 5
    relGet16 := fun _ => .ok 0
    readU0_10In := fun _ _ => .ok 1
    hasReadR1kIn := true
    readR1kIn := fun _ _ => .ok 50
    hasReadR10kIn := true
    readR10kIn := fun _ _ => .ok 500
    readU0_10Out16 := fun _ _ => .ok 0
    setUOutFail := fun _ _ _ => none
    setTriacFail := fun _ _ _ => none
    relSet8Fail := fun _ _ _ => none
    relSet16Fail := fun _ _ _ => none
    setAll8Fail := fun _ _ => none
    setAll16Fail := fun _ _ => none
    writeU0_10OutFail := fun _ _ _ => none }

/-- No vendor library imported at all: discovery finds nothing. -/
def envNone : Env :=
  { okEnv with
    hasMegabas := false
    has8relind := false
    has16relind := false
    has16univin := false
    has16uout := false }

/-- Only the 16univin library is available, and exactly one 16univin board
answers its probe, at stack 0. -/
def envUniv : Env :=
  { envNone with
    has16univin := true
    readU0_10In := fun s _ => if s = 0 then .ok 1 else .error "board absent" }

/-- megabas and 8relind drivers available; one board of each type answers at
stack address 0 and nowhere else. -/
def envTwo : Env :=
  { envNone with
    hasMegabas := true
    has8relind := true
    getVer := fun s => if s = 0 then .ok "4.09" else .error "board absent"
    relGet8 := fun s => if s = 0 then .ok 0 else .error "board absent" }

/-- Only the megabas library is available (all its calls succeed). -/
def envM : Env :=
  { okEnv with
    has8relind := false
    has16relind := false
    has16univin := false
    has16uout := false }

/-- Fully operational environment, except that the RTC read raises while the
four watchdog getters still succeed. -/
def envC8 : Env :=
  { okEnv with rtcGet := fun _ => .error "rtc read failed" }

/-- Environment in which representative driver calls raise: the megabas
version read, the 8relind mask read and the 16univin channel read all fail,
and the analog/relay/universal write calls all fail. -/
def envFail : Env :=
  { okEnv with
    getVer := fun _ => .error "i2c read failed"
    relGet8 := fun _ => .error "i2c read failed"
    readU0_10In := fun _ _ => .error "i2c read failed"
    setUOutFail := fun _ _ _ => some "i2c write failed"
    relSet8Fail := fun _ _ _ => some "i2c write failed"
    writeU0_10OutFail := fun _ _ _ => some "i2c write failed" }

/-! ## Helper lemmas -/

theorem exBind_ok {α β : Type} (a : α) (f : α → Except String β) :
    (Except.ok a >>= f : Except String β) = f a := rfl

theorem exBind_err {α β : Type} (e : String) (f : α → Except String β) :
    ((Except.error e : Except String α) >>= f : Except String β) = .error e := rfl

theorem pymBind_apply {α β : Type} (x : PyM α) (f : α → PyM β) (w : World) :
    (x >>= f) w =
      match x w with
      | (.ok a, w') => f a w'
      | (.error e, w') => (.error e, w') := rfl

theorem pymPure_apply {α : Type} (a : α) (w : World) :
    (PyM.pure a : PyM α) w = (.ok a, w) := rfl

/-- The test written by the unpacking loops agrees with `Nat.testBit`. -/
theorem and_shift_testBit (m i : Nat) :
    ((m &&& (1 <<< i)) != 0) = m.testBit i := by
  have h1 : (1 : Nat) <<< i = 2 ^ i := by rw [Nat.shiftLeft_eq, one_mul]
  rw [h1, Nat.and_two_pow]
  cases h : m.testBit i
  · simp
  · simp only [Bool.toNat_true, one_mul, bne_iff_ne, ne_eq, eq_iff_iff, iff_true]
    exact (Nat.two_pow_pos i).ne'

theorem unpackMask_getElem? (mask n ch : Nat) (h1 : 1 ≤ ch) (h2 : ch ≤ n) :
    (unpackMask mask n)[ch - 1]? = some (mask.testBit (ch - 1)) := by
  unfold unpackMask
  rw [List.getElem?_map, List.getElem?_range' 1 1 (by omega)]
  simp only [Option.map]
  rw [show 1 + 1 * (ch - 1) = ch by omega]
  rw [and_shift_testBit]

/-! ## C7: capability registry -/

/-- C7: for every BoardType in {megabas, 8relind, 16relind, 16univin,
16uout} the capability registry `board_configs` is defined (total on the
closed enumeration) and its bounds match the declared table: megabas has
triacs=4, analog_outputs=4, configurable_inputs=8; 8relind has relays=8;
16relind has relays=16; 16univin has 16 universal inputs and no outputs
(read-only); 16uout has 16 analog outputs and no inputs (write-only). -/
theorem C7_registry_matches_table :
    (∀ bt, bt ∈ boardOrder → (board_configs bt).isSome = true)
    ∧ (∃ c, board_configs "megabas" = some c ∧ c.triacs = some 4
        ∧ c.analog_outputs = some 4 ∧ c.configurable_inputs = some 8)
    ∧ (∃ c, board_configs "8relind" = some c ∧ c.relays = some 8)
    ∧ (∃ c, board_configs "16relind" = some c ∧ c.relays = some 16)
    ∧ (∃ c, board_configs "16univin" = some c ∧ c.universal_inputs = some 16
        ∧ c.relays = none ∧ c.triacs = none ∧ c.analog_outputs = none)
    ∧ (∃ c, board_configs "16uout" = some c ∧ c.analog_outputs = some 16
        ∧ c.relays = none ∧ c.triacs = none ∧ c.universal_inputs = none) := by
  refine ⟨?_, ⟨_, rfl, rfl, rfl, rfl⟩, ⟨_, rfl, rfl⟩, ⟨_, rfl, rfl⟩,
    ⟨_, rfl, rfl, rfl, rfl, rfl⟩, ⟨_, rfl, rfl, rfl, rfl, rfl⟩⟩
  intro bt h
  fin_cases h <;> rfl

/-- Witness for C7: the registry is defined at the first board type. -/
theorem C7_witness : (board_configs "megabas").isSome = true :=
  C7_registry_matches_table.1 "megabas" (List.Mem.head _)

/-! ## C6: bit-exact mask unpacking -/

/-- C6: relay and triac bitmask unpacking is bit-exact.  The unpacking
expression reports channel `ch` as bit `ch - 1` of the driver mask;
`get_relay_status` applies it to the whole mask for 8 and 16 relay boards
(and `get_megabas_status` uses the same `unpackMask` for the four triacs);
in particular mask `0b00000101` on an 8-relay board reports channels 1 and 3
as true and all others false. -/
theorem C6_bitmask_unpack_bit_exact :
    (∀ (mask n ch : Nat), 1 ≤ ch → ch ≤ n →
      (unpackMask mask n)[ch - 1]? = some (mask.testBit (ch - 1)))
    ∧ (∀ (env : Env) (stack : Int) (mask : Nat), env.has8relind = true →
        env.relGet8 stack = .ok mask →
        get_relay_status env "8relind" stack
          = .ok (.status "8relind" stack (unpackMask mask 8)))
    ∧ (∀ (env : Env) (stack : Int) (mask : Nat), env.has16relind = true →
        env.relGet16 stack = .ok mask →
        get_relay_status env "16relind" stack
          = .ok (.status "16relind" stack (unpackMask mask 16)))
    ∧ (∀ (tmask : Nat), unpackMask tmask 4
        = [tmask.testBit 0, tmask.testBit 1, tmask.testBit 2, tmask.testBit 3])
    ∧ unpackMask 5 8 = [true, false, true, false, false, false, false, false] := by
  refine ⟨unpackMask_getElem?, ?_, ?_, ?_, by decide⟩
  · intro env stack mask h hm
    rw [get_relay_status]
    have hb : env.hasBoard "8relind" = true := by
      simp [Env.hasBoard, h]
    rw [hb]
    simp [hm, exBind_ok]
  · intro env stack mask h hm
    rw [get_relay_status]
    have hb : env.hasBoard "16relind" = true := by
      simp [Env.hasBoard, h]
    rw [hb]
    simp [hm, exBind_ok]
  · intro tmask
    show (List.range' 1 4).map _ = _
    rw [show List.range' 1 4 = [1, 2, 3, 4] from rfl]
    simp only [List.map]
    rw [and_shift_testBit, and_shift_testBit, and_shift_testBit, and_shift_testBit]

/-- Witness for C6: the spec's own example, mask `0b00000101` on the 8-relay
board: channel 3 reads bit 2, which is set. -/
theorem C6_witness :
    (unpackMask 5 8)[3 - 1]? = some ((5 : Nat).testBit (3 - 1))
    ∧ (5 : Nat).testBit (3 - 1) = true
    ∧ get_relay_status okEnv "8relind" 0
        = .ok (.status "8relind" 0 (unpackMask 5 8)) :=
  ⟨C6_bitmask_unpack_bit_exact.1 5 8 3 (by decide) (by decide), by decide,
    C6_bitmask_unpack_bit_exact.2.1 okEnv 0 5 rfl rfl⟩

/-! ## C5: out-of-range requests never touch the hardware -/

/-- C5: for every stack, a channel outside [1,4] or a value outside [0,10]
makes `set_megabas_output(stack, "analog", channel, value)` return a
validation error with the hardware state and the driver-call trace
completely untouched; likewise `set_universal_output` for a channel outside
[1,16] or a value outside [0,10]. -/
theorem C5_validation_no_driver_call :
    ∀ (env : Env) (w : World) (stack channel : Int) (value : Rat),
      ((channel < 1 ∨ channel > 4 ∨ value < 0 ∨ value > 10) →
        ∃ msg, set_megabas_output env stack "analog" channel value w
          = (.ok (errVal msg), w))
      ∧ ((channel < 1 ∨ channel > 16 ∨ value < 0 ∨ value > 10) →
        ∃ msg, set_universal_output env stack channel value w
          = (.ok (errVal msg), w)) := by
  intro env w stack channel value
  constructor
  · intro hbad
    cases hm : env.hasMegabas with
    | false =>
      exact ⟨"MegaBAS library not available", by
        simp [set_megabas_output, hm, PyM.pure]⟩
    | true =>
      by_cases hc : channel < 1 ∨ channel > 4
      · exact ⟨"Invalid analog channel: " ++ toString channel ++
          ". MegaBAS has 4 analog outputs (1-4)", by
          simp [set_megabas_output, hm, PyM.tryCatch, PyM.pure, hc]⟩
      · have hv : value < 0 ∨ value > 10 := by tauto
        exact ⟨"Invalid voltage: " ++ toString value ++ ". Range is 0-10V", by
          simp [set_megabas_output, hm, PyM.tryCatch, PyM.pure, hc, hv]⟩
  · intro hbad
    cases hm : env.has16uout with
    | false =>
      exact ⟨"16uout library not available", by
        simp [set_universal_output, hm, PyM.pure]⟩
    | true =>
      by_cases hc : channel < 1 ∨ channel > 16
      · exact ⟨"Invalid channel: " ++ toString channel ++
          ". 16uout has 16 outputs (1-16)", by
          simp [set_universal_output, hm, PyM.tryCatch, PyM.pure, hc]⟩
      · have hv : value < 0 ∨ value > 10 := by tauto
        exact ⟨"Invalid voltage: " ++ toString value ++ ". Range is 0-10V", by
          simp [set_universal_output, hm, PyM.tryCatch, PyM.pure, hc, hv]⟩

/-- Witness for C5: channel 9 on the 4-channel analog output fails
validation, a 12 V request on the 16uout board fails validation, both with
the world untouched. -/
theorem C5_witness :
    (∃ msg, set_megabas_output okEnv 0 "analog" 9 5 w0 = (.ok (errVal msg), w0))
    ∧ (∃ msg, set_universal_output okEnv 0 3 12 w0 = (.ok (errVal msg), w0)) :=
  ⟨(C5_validation_no_driver_call okEnv w0 0 9 5).1 (Or.inr (Or.inl (by decide))),
   (C5_validation_no_driver_call okEnv w0 0 3 12).2
     (Or.inr (Or.inr (Or.inr (by decide))))⟩

/-! ## C4: driver exceptions never propagate -/

/-- Any `try` body whose handler returns a plain value yields a normal
return whatever the body does. -/
theorem tryCatch_pure_handler_ok {α : Type} (x : PyM α) (g : String → α)
    (w : World) :
    ∃ r w', PyM.tryCatch x (fun e => PyM.pure (g e)) w = (.ok r, w') := by
  unfold PyM.tryCatch
  rcases hx : x w with ⟨res, w1⟩
  cases res with
  | ok a => exact ⟨a, w1, rfl⟩
  | error e => exact ⟨g e, w1, rfl⟩

/-- A validated branch whose single driver write raises: the call is
recorded in the trace, no state update is applied, the exception is caught
by the operation's handler and converted to the error dict. -/
theorem tryCatch_call_err {c : DrvCall} {e : String} (hc : c.fail = some e)
    (v : Val) (w : World) :
    PyM.tryCatch (runCall c >>= fun _ => PyM.pure v)
      (fun e' => PyM.pure (errVal e')) w
      = (.ok (errVal e), { w with calls := w.calls ++ [c.ev] }) := by
  unfold PyM.tryCatch
  rw [pymBind_apply]
  unfold runCall
  rw [hc]
  rfl

/-- C4: for every adapter operation and every exception thrown by an
underlying driver call, the exception is caught inside the operation and
converted to the `{"error": message}` result: (i) no operation ever lets an
exception propagate to its caller — for every driver behaviour the
exception-propagation layer is a normal return — and (ii) a driver call
that raises with message `e` makes the operation return exactly the error
dict carrying `e` (for the status reads: any failing read of the megabas
status body, the relay mask reads, the 16univin channel read; for the set
operations: the single validated write of each branch). -/
theorem C4_driver_exceptions_converted :
    ∀ (env : Env) (w : World) (stack channel : Int) (value : Rat)
      (board_type output_type : String) (state : Bool) (e : String),
      (∃ r, get_megabas_status env stack = .ok r)
      ∧ (∃ r, get_relay_status env board_type stack = .ok r)
      ∧ (∃ r, get_universal_input env stack channel = .ok r)
      ∧ (∃ r w', set_megabas_output env stack output_type channel value w
          = (.ok r, w'))
      ∧ (∃ r w', set_relay env board_type stack channel state w = (.ok r, w'))
      ∧ (∃ r w', set_universal_output env stack channel value w
          = (.ok r, w'))
      ∧ (env.hasMegabas = true → mbStatusBody env stack = .error e →
          get_megabas_status env stack = .ok (.err e))
      ∧ (env.has8relind = true → env.relGet8 stack = .error e →
          get_relay_status env "8relind" stack = .ok (.err e))
      ∧ (env.has16relind = true → env.relGet16 stack = .error e →
          get_relay_status env "16relind" stack = .ok (.err e))
      ∧ (env.has16univin = true → 1 ≤ channel → channel ≤ 16 →
          env.readU0_10In stack channel = .error e →
          get_universal_input env stack channel = .ok (.err e))
      ∧ (env.hasMegabas = true → 1 ≤ channel → channel ≤ 4 →
          0 ≤ value → value ≤ 10 →
          env.setUOutFail stack channel value = some e →
          set_megabas_output env stack "analog" channel value w
            = (.ok (errVal e),
               { w with calls := w.calls
                  ++ [CallEv.setUOut stack channel value] }))
      ∧ (env.hasMegabas = true → 1 ≤ channel → channel ≤ 4 →
          env.setTriacFail stack channel (pyTrunc value) = some e →
          set_megabas_output env stack "triac" channel value w
            = (.ok (errVal e),
               { w with calls := w.calls
                  ++ [CallEv.setTriac stack channel (pyTrunc value)] }))
      ∧ (env.has8relind = true → 1 ≤ channel → channel ≤ 8 →
          env.relSet8Fail stack channel (if state then 1 else 0) = some e →
          set_relay env "8relind" stack channel state w
            = (.ok (errVal e),
               { w with calls := w.calls
                  ++ [CallEv.relSet8 stack channel (if state then 1 else 0)] }))
      ∧ (env.has16relind = true → 1 ≤ channel → channel ≤ 16 →
          env.relSet16Fail stack channel (if state then 1 else 0) = some e →
          set_relay env "16relind" stack channel state w
            = (.ok (errVal e),
               { w with calls := w.calls
                  ++ [CallEv.relSet16 stack channel (if state then 1 else 0)] }))
      ∧ (env.has16uout = true → 1 ≤ channel → channel ≤ 16 →
          0 ≤ value → value ≤ 10 →
          env.writeU0_10OutFail stack channel value = some e →
          set_universal_output env stack channel value w
            = (.ok (errVal e),
               { w with calls := w.calls
                  ++ [CallEv.writeU0_10Out stack channel value] })) := by
  intro env w stack channel value board_type output_type state e
  refine ⟨?_, ?_, ?_, ?_, ?_, ?_, ?_, ?_, ?_, ?_, ?_, ?_, ?_, ?_, ?_⟩
  · unfold get_megabas_status
    split <;> exact ⟨_, rfl⟩
  · unfold get_relay_status
    split <;> exact ⟨_, rfl⟩
  · unfold get_universal_input
    split <;> exact ⟨_, rfl⟩
  · unfold set_megabas_output
    split
    · exact ⟨_, _, rfl⟩
    · exact tryCatch_pure_handler_ok _ _ w
  · unfold set_relay
    split
    · exact ⟨_, _, rfl⟩
    · exact tryCatch_pure_handler_ok _ _ w
  · unfold set_universal_output
    split
    · exact ⟨_, _, rfl⟩
    · exact tryCatch_pure_handler_ok _ _ w
  · intro hm he
    rw [get_megabas_status, if_neg (by simp [hm]), he]
  · intro hm he
    rw [get_relay_status]
    have hb : env.hasBoard "8relind" = true := by simp [Env.hasBoard, hm]
    rw [hb]
    simp [he, exBind_err]
  · intro hm he
    rw [get_relay_status]
    have hb : env.hasBoard "16relind" = true := by simp [Env.hasBoard, hm]
    rw [hb]
    simp [he, exBind_err]
  · intro hm h1 h2 he
    rw [get_universal_input, if_neg (by simp [hm]), if_neg (by omega), he,
      exBind_err]
  · intro hm h1 h2 h3 h4 hf
    rw [set_megabas_output, if_neg (by simp [hm]), if_pos rfl,
      if_neg (by omega), if_neg (by push_neg; exact ⟨h3, h4⟩)]
    exact tryCatch_call_err hf _ w
  · intro hm h1 h2 hf
    rw [set_megabas_output, if_neg (by simp [hm]), if_neg (by decide),
      if_pos rfl, if_neg (by omega)]
    exact tryCatch_call_err hf _ w
  · intro hm h1 h2 hf
    rw [set_relay, if_neg (by simp [Env.hasBoard, hm]), if_pos rfl,
      if_neg (by omega)]
    exact tryCatch_call_err hf _ w
  · intro hm h1 h2 hf
    rw [set_relay, if_neg (by simp [Env.hasBoard, hm]), if_neg (by decide),
      if_pos rfl, if_neg (by omega)]
    exact tryCatch_call_err hf _ w
  · intro hm h1 h2 h3 h4 hf
    rw [set_universal_output, if_neg (by simp [hm]), if_neg (by omega),
      if_neg (by push_neg; exact ⟨h3, h4⟩)]
    exact tryCatch_call_err hf _ w

/-- Witness for C4: with representative driver calls raising, the megabas
status read, the relay status read and a validated analog write all return
the error dict carrying the driver's message (the write also leaves exactly
its one recorded invocation, with no state update). -/
theorem C4_witness :
    get_megabas_status envFail 0 = .ok (.err "i2c read failed")
    ∧ get_relay_status envFail "8relind" 0 = .ok (.err "i2c read failed")
    ∧ set_megabas_output envFail 0 "analog" 2 5 w0
        = (.ok (errVal "i2c write failed"),
           { w0 with calls := [CallEv.setUOut 0 2 5] }) := by
  obtain ⟨_, _, _, _, _, _, h7, h8, _, _, _, _, _, _, _⟩ :=
    C4_driver_exceptions_converted envFail w0 0 2 5 "8relind" "analog" true
      "i2c read failed"
  obtain ⟨_, _, _, _, _, _, _, _, _, _, h11, _, _, _, _⟩ :=
    C4_driver_exceptions_converted envFail w0 0 2 5 "8relind" "analog" true
      "i2c write failed"
  exact ⟨h7 rfl rfl, h8 rfl rfl,
    h11 rfl (by decide) (by decide) (by decide) (by decide) rfl⟩

/-! ## C10: set_relay passes non-relay board types straight through -/

/-- C10: for every board type present in the available-driver registry that
is neither "8relind" nor "16relind", and for every stack, channel and state,
`set_relay` returns the success dict without validating the channel and
without issuing any driver call or state change (the world, including the
invocation trace, is returned untouched). -/
theorem C10_set_relay_passthrough_success :
    ∀ (env : Env) (bt : String) (stack channel : Int) (state : Bool)
      (w : World),
      env.hasBoard bt = true → bt ≠ "8relind" → bt ≠ "16relind" →
      set_relay env bt stack channel state w
        = (.ok (.vObj [("success", .vBool true), ("channel", .vInt channel),
            ("state", .vBool state)]), w) := by
  intro env bt stack channel state w hb h8 h16
  rw [set_relay, if_neg (by simp [hb])]
  show PyM.tryCatch _ _ w = _
  rw [if_neg h8, if_neg h16]
  rfl

/-- Witness for C10: with the megabas library available, a `set_relay` on
board type "megabas" at the wildly out-of-range channel 99 succeeds and
leaves the hardware world untouched. -/
theorem C10_witness :
    set_relay envM "megabas" 0 99 true w0
      = (.ok (.vObj [("success", .vBool true), ("channel", .vInt 99),
          ("state", .vBool true)]), w0) :=
  C10_set_relay_passthrough_success envM "megabas" 0 99 true w0 rfl
    (by decide) (by decide)

/-! ## C2: discovery registration -/

/-- The identity of a discovered board: its type and its stack address. -/
def instKey (b : BoardInstance) : String × Int := (b.btype, b.stack)

theorem probe_fields {env : Env} {bt : String} {s : Int} {b : BoardInstance}
    (h : probe env bt s = some b) : b.btype = bt ∧ b.stack = s := by
  unfold probe at h
  cases hv : probeVersion env bt s with
  | none => rw [hv] at h; cases h
  | some v => rw [hv] at h; cases h; exact ⟨rfl, rfl⟩

theorem scanOne_keys_nodup (env : Env) (s : Int) :
    ((boardOrder.filterMap (fun bt => probe env bt s)).map instKey).Nodup := by
  rw [List.map_filterMap]
  refine List.Nodup.filterMap ?_ (by decide)
  intro a a' k hk hk'
  rw [Option.mem_def] at hk hk'
  cases hp : probe env a s with
  | none => rw [hp] at hk; cases hk
  | some b =>
    cases hp' : probe env a' s with
    | none => rw [hp'] at hk'; cases hk'
    | some b' =>
      rw [hp] at hk
      rw [hp'] at hk'
      simp only [Option.map] at hk hk'
      have hb := probe_fields hp
      have hb' := probe_fields hp'
      have : instKey b = instKey b' :=
        (Option.some.inj hk).trans (Option.some.inj hk').symm
      calc a = b.btype := hb.1.symm
        _ = (instKey b).1 := rfl
        _ = (instKey b').1 := by rw [this]
        _ = b'.btype := rfl
        _ = a' := hb'.1

theorem scanOne_key_stack {env : Env} {s : Int} {k : String × Int}
    (h : k ∈ (boardOrder.filterMap (fun bt => probe env bt s)).map instKey) :
    k.2 = s := by
  rw [List.mem_map] at h
  obtain ⟨b, hb, hk⟩ := h
  rw [List.mem_filterMap] at hb
  obtain ⟨bt, _, hp⟩ := hb
  have := (probe_fields hp).2
  rw [← hk]
  exact this

/-- C2 counterexample: with the megabas and 8relind drivers present and a
board of each type answering its probe at stack 0, `scan_boards` registers
two BoardInstances at the same stackAddress — the second responding type is
not excluded by the first.  This refutes the claim as stated. -/
theorem C2_cex_two_types_same_stack :
    (scan_boards envTwo).map instKey = [("megabas", 0), ("8relind", 0)]
    ∧ (scan_boards envTwo).map (fun b => b.stack) = [0, 0] := by
  refine ⟨?_, ?_⟩ <;> rfl

/-- C2 amended: `scan_boards` probes every board type independently at every
stack address and registers each responding (boardType, stackAddress) pair
exactly once: the recorded list never contains two BoardInstances with the
same board type and the same stack address — but distinct board types
responding at one address are each registered (there is no
first-responder-wins exclusion across types). -/
theorem C2_amended_nodup_type_stack :
    ∀ env : Env, ((scan_boards env).map instKey).Nodup := by
  intro env
  unfold scan_boards
  rw [List.map_flatMap]
  refine List.nodup_flatMap.2 ⟨?_, ?_⟩
  · intro s _
    exact scanOne_keys_nodup env s
  · have hp : stacks8.Pairwise (· ≠ ·) := by decide
    refine hp.imp ?_
    intro s s' hne
    intro k hk hk'
    exact hne ((scanOne_key_stack hk).symm.trans (scanOne_key_stack hk'))

/-! ## C1: emergency stop aggregation -/

theorem runCall_run (c : DrvCall) (w : World) :
    ∃ w', runCall c w =
      ((match c.fail with
        | none => Except.ok ()
        | some e => Except.error e), w') := by
  unfold runCall
  cases c.fail with
  | none => exact ⟨_, rfl⟩
  | some e => exact ⟨_, rfl⟩

theorem runCalls_run (cs : List DrvCall) (w : World) :
    ∃ w', runCalls cs w =
      ((match firstFail cs with
        | none => Except.ok ()
        | some e => Except.error e), w') := by
  induction cs generalizing w with
  | nil => exact ⟨w, rfl⟩
  | cons c cs ih =>
    show ∃ w', (match runCall c w with
      | (.ok _, w1) => runCalls cs w1
      | (.error e, w1) => (.error e, w1)) = _
    unfold runCall firstFail
    cases c.fail with
    | some e => exact ⟨_, rfl⟩
    | none =>
      obtain ⟨w', hw⟩ := ih (c.upd { w with calls := w.calls ++ [c.ev] })
      exact ⟨w', hw⟩

/-- A stop branch built from a sequence of driver writes produces exactly
one entry: stopped on success, the first exception message on failure. -/
theorem stopSeq_run (cs : List DrvCall) (okLabel errLabel : String) (w : World) :
    ∃ w', PyM.tryCatch (runCalls cs >>= fun _ => PyM.pure [stoppedEntry okLabel])
        (fun e => PyM.pure [errEntry errLabel e]) w
      = (.ok (match firstFail cs with
          | none => [stoppedEntry okLabel]
          | some e => [errEntry errLabel e]), w') := by
  obtain ⟨w', hw⟩ := runCalls_run cs w
  refine ⟨w', ?_⟩
  unfold PyM.tryCatch
  rw [pymBind_apply, hw]
  cases firstFail cs with
  | none => rfl
  | some e => rfl

/-- Same, for a stop branch issuing a single driver write. -/
theorem stopSeq1_run (c : DrvCall) (okLabel errLabel : String) (w : World) :
    ∃ w', PyM.tryCatch (runCall c >>= fun _ => PyM.pure [stoppedEntry okLabel])
        (fun e => PyM.pure [errEntry errLabel e]) w
      = (.ok (match c.fail with
          | none => [stoppedEntry okLabel]
          | some e => [errEntry errLabel e]), w') := by
  obtain ⟨w', hw⟩ := runCall_run c w
  refine ⟨w', ?_⟩
  unfold PyM.tryCatch
  rw [pymBind_apply, hw]
  cases c.fail with
  | none => rfl
  | some e => rfl

theorem stopEntries_run (env : Env) (b : BoardInstance) (w : World) :
    ∃ w', stopEntries env b w = (.ok (stopOutcome env b), w') := by
  rw [stopEntries, stopOutcome]
  by_cases h1 : b.btype = "megabas"
  · rw [if_pos h1, if_pos h1]
    exact stopSeq_run _ _ _ w
  rw [if_neg h1, if_neg h1]
  by_cases h2 : b.btype = "8relind"
  · rw [if_pos h2, if_pos h2]
    exact stopSeq1_run _ _ _ w
  rw [if_neg h2, if_neg h2]
  by_cases h3 : b.btype = "16relind"
  · rw [if_pos h3, if_pos h3]
    exact stopSeq1_run _ _ _ w
  rw [if_neg h3, if_neg h3]
  by_cases h4 : b.btype = "16uout"
  · rw [if_pos h4, if_pos h4]
    exact stopSeq_run _ _ _ w
  rw [if_neg h4, if_neg h4]
  exact ⟨w, rfl⟩

theorem goBoards_run (env : Env) (bs : List BoardInstance) (w : World) :
    ∃ w', goBoards env bs w = (.ok (bs.flatMap (stopOutcome env)), w') := by
  induction bs generalizing w with
  | nil => exact ⟨w, rfl⟩
  | cons b bs ih =>
    obtain ⟨w1, h1⟩ := stopEntries_run env b w
    obtain ⟨w2, h2⟩ := ih w1
    refine ⟨w2, ?_⟩
    show (stopEntries env b >>= fun es =>
      goBoards env bs >>= fun rest => PyM.pure (es ++ rest)) w = _
    rw [pymBind_apply, h1]
    show (goBoards env bs >>= fun rest =>
      PyM.pure (stopOutcome env b ++ rest)) w1 = _
    rw [pymBind_apply, h2]
    rfl

theorem emergency_stop_run (env : Env) (w : World) :
    ∃ w', emergency_stop env w
      = (.ok (.vObj [("emergency_stop", .vBool true),
          ("results", .vArr ((scan_boards env).flatMap (stopOutcome env)))]), w') := by
  obtain ⟨w', h⟩ := goBoards_run env (scan_boards env) w
  refine ⟨w', ?_⟩
  show (goBoards env (scan_boards env) >>= fun results =>
    PyM.pure (Val.vObj [("emergency_stop", Val.vBool true),
      ("results", Val.vArr results)])) w
    = (Except.ok (Val.vObj [("emergency_stop", Val.vBool true),
        ("results", Val.vArr ((scan_boards env).flatMap (stopOutcome env)))]), w')
  rw [pymBind_apply, h]
  rfl

/-- Board types for which the stop loop has a branch (boards with
controllable outputs). -/
def outputTypes : List String := ["megabas", "8relind", "16relind", "16uout"]

theorem stopOutcome_length (env : Env) (b : BoardInstance) :
    (stopOutcome env b).length = if b.btype ∈ outputTypes then 1 else 0 := by
  rw [stopOutcome]
  by_cases h1 : b.btype = "megabas"
  · have hm : b.btype ∈ outputTypes := by rw [h1]; exact List.Mem.head _
    rw [if_pos h1, if_pos hm]
    cases firstFail (mbStopCalls env b.stack) with
    | none => rfl
    | some e => rfl
  rw [if_neg h1]
  by_cases h2 : b.btype = "8relind"
  · have hm : b.btype ∈ outputTypes := by
      rw [h2]; exact List.Mem.tail _ (List.Mem.head _)
    rw [if_pos h2, if_pos hm]
    cases env.setAll8Fail b.stack 0 with
    | none => rfl
    | some e => rfl
  rw [if_neg h2]
  by_cases h3 : b.btype = "16relind"
  · have hm : b.btype ∈ outputTypes := by
      rw [h3]; exact List.Mem.tail _ (List.Mem.tail _ (List.Mem.head _))
    rw [if_pos h3, if_pos hm]
    cases env.setAll16Fail b.stack 0 with
    | none => rfl
    | some e => rfl
  rw [if_neg h3]
  by_cases h4 : b.btype = "16uout"
  · have hm : b.btype ∈ outputTypes := by
      rw [h4]
      exact List.Mem.tail _ (List.Mem.tail _ (List.Mem.tail _ (List.Mem.head _)))
    rw [if_pos h4, if_pos hm]
    cases firstFail (uout16StopCalls env b.stack) with
    | none => rfl
    | some e => rfl
  rw [if_neg h4]
  have hm : ¬ b.btype ∈ outputTypes := by
    intro hmem
    simp only [outputTypes, List.mem_cons, List.not_mem_nil, or_false] at hmem
    rcases hmem with h | h | h | h
    · exact h1 h
    · exact h2 h
    · exact h3 h
    · exact h4 h
  rw [if_neg hm]
  rfl

theorem flatMap_stopOutcome_length (env : Env) (bs : List BoardInstance) :
    (bs.flatMap (stopOutcome env)).length
      = (bs.filter (fun b => decide (b.btype ∈ outputTypes))).length := by
  induction bs with
  | nil => rfl
  | cons b bs ih =>
    rw [List.flatMap_cons, List.length_append, ih, stopOutcome_length,
      List.filter_cons]
    by_cases h : b.btype ∈ outputTypes <;> simp [h] <;> omega

/-- C1 counterexample: with exactly one board discovered — a 16univin at
stack 0 — `emergency_stop` aggregates zero result entries, not one entry
per discovered board: the input-only board matches no branch of the stop
loop and nothing is appended for it.  This refutes the claim as stated. -/
theorem C1_cex_univin_board_no_entry :
    scan_boards envUniv = [⟨"16univin", 0, "16-UnivIn Stack 0", "Unknown"⟩]
    ∧ (emergency_stop envUniv w0).1
        = .ok (.vObj [("emergency_stop", .vBool true), ("results", .vArr [])]) :=
  ⟨rfl, rfl⟩

/-- C1 amended: `emergency_stop` visits every discovered board in scan order
and aggregates exactly one result entry (a stopped status or a per-board
error, even when that board's stop calls raise) for every discovered board
whose type has controllable outputs (megabas, 8relind, 16relind, 16uout);
discovered 16univin boards are input-only and contribute no entry; with no
boards discovered it returns `{"emergency_stop": true, "results": []}`. -/
theorem C1_amended_one_entry_per_output_board :
    ∀ (env : Env) (w : World), ∃ w',
      emergency_stop env w
        = (.ok (.vObj [("emergency_stop", .vBool true),
            ("results", .vArr ((scan_boards env).flatMap (stopOutcome env)))]), w')
      ∧ ((scan_boards env).flatMap (stopOutcome env)).length
          = ((scan_boards env).filter
              (fun b => decide (b.btype ∈ outputTypes))).length
      ∧ (scan_boards env = [] →
          emergency_stop env w = (.ok (.vObj [("emergency_stop", .vBool true),
            ("results", .vArr [])]), w)) := by
  intro env w
  obtain ⟨w', h⟩ := emergency_stop_run env w
  refine ⟨w', h, flatMap_stopOutcome_length env (scan_boards env), ?_⟩
  intro he
  show (goBoards env (scan_boards env) >>= fun results =>
    PyM.pure (Val.vObj [("emergency_stop", Val.vBool true),
      ("results", Val.vArr results)])) w
    = (Except.ok (Val.vObj [("emergency_stop", Val.vBool true),
        ("results", Val.vArr [])]), w)
  rw [he]
  rfl

/-- Witness for C1: with no driver libraries available nothing is
discovered, and the emergency stop returns the empty results envelope with
the hardware world untouched. -/
theorem C1_witness_empty_scan :
    emergency_stop envNone w0
      = (.ok (.vObj [("emergency_stop", .vBool true), ("results", .vArr [])]), w0) := by
  obtain ⟨w', _, _, h3⟩ := C1_amended_one_entry_per_output_board envNone w0
  exact h3 rfl

/-! ## C8: optional RTC / watchdog sub-reads -/

theorem mapE_ok {α β : Type} (l : List α) (f : α → Except String β)
    (g : α → β) (h : ∀ a ∈ l, f a = .ok (g a)) : mapE l f = .ok (l.map g) := by
  induction l with
  | nil => rfl
  | cons a as ih =>
    show (f a >>= fun b => mapE as f >>= fun bs => Except.ok (b :: bs)) = _
    rw [h a (List.Mem.head _), exBind_ok,
      ih (fun x hx => h x (List.Mem.tail _ hx)), exBind_ok]
    rfl

/-- Full characterisation of a megabas status read whose mandatory sub-reads
all succeed: the result is the status structure, with the optional RTC and
watchdog fields each holding its own sub-read's outcome. -/
theorem mbStatusBody_ok (env : Env) (stack : Int) (ver : String) (t : Nat)
    (uo ui r1 r10 : Int → Rat) (cm : Nat) (cs cc ce : Int → Int)
    (pv rv ct : Rat)
    (hv : env.getVer stack = .ok ver)
    (ht : env.getTriacs stack = .ok t)
    (huo : ∀ ch ∈ chan4, env.getUOut stack ch = .ok (uo ch))
    (hui : ∀ ch ∈ chan8i, env.getUIn stack ch = .ok (ui ch))
    (hr1 : ∀ ch ∈ chan8i, env.getRIn1K stack ch = .ok (r1 ch))
    (hr10 : ∀ ch ∈ chan8i, env.getRIn10K stack ch = .ok (r10 ch))
    (hc : env.getContact stack = .ok cm)
    (hcs : ∀ ch ∈ chan8i, env.getContactCh stack ch = .ok (cs ch))
    (hcc : ∀ ch ∈ chan8i, env.getContactCounter stack ch = .ok (cc ch))
    (hce : ∀ ch ∈ chan8i, env.getContactCountEdge stack ch = .ok (ce ch))
    (hpv : env.getInVolt stack = .ok pv)
    (hrv : env.getRaspVolt stack = .ok rv)
    (hct : env.getCpuTemp stack = .ok ct) :
    mbStatusBody env stack
      = .ok { stack := stack
              firmware := ver
              triacs := unpackMask t 4
              analog_outputs := chan4.map uo
              configurable_inputs := chan8i.map (fun ch => (ui ch, r1 ch, r10 ch))
              dry_contacts := chan8i.map (fun ch => (cs ch, cc ch, ce ch))
              sensors := (pv, rv, ct)
              rtc := tryOpt (rtcRead env stack)
              watchdog := tryOpt (wdtRead env stack) } := by
  have h1 : mapE chan4 (fun ch => env.getUOut stack ch) = .ok (chan4.map uo) :=
    mapE_ok _ _ _ huo
  have h2 : mapE chan8i (fun ch => do
      let v ← env.getUIn stack ch
      let r1 ← env.getRIn1K stack ch
      let r10 ← env.getRIn10K stack ch
      Except.ok (v, r1, r10))
      = .ok (chan8i.map (fun ch => (ui ch, r1 ch, r10 ch))) := by
    refine mapE_ok _ _ _ ?_
    intro ch hch
    rw [hui ch hch, exBind_ok, hr1 ch hch, exBind_ok, hr10 ch hch, exBind_ok]
  have h3 : mapE chan8i (fun ch => do
      let st ← env.getContactCh stack ch
      let cnt ← env.getContactCounter stack ch
      let em ← env.getContactCountEdge stack ch
      Except.ok (st, cnt, em))
      = .ok (chan8i.map (fun ch => (cs ch, cc ch, ce ch))) := by
    refine mapE_ok _ _ _ ?_
    intro ch hch
    rw [hcs ch hch, exBind_ok, hcc ch hch, exBind_ok, hce ch hch, exBind_ok]
  unfold mbStatusBody
  rw [hv, exBind_ok, ht, exBind_ok, h1, exBind_ok, h2, exBind_ok, hc,
    exBind_ok, h3, exBind_ok, hpv, exBind_ok, hrv, exBind_ok, hct, exBind_ok]

/-- C8: whenever every mandatory sub-read of `get_megabas_status` succeeds,
the call returns a successful status object (never an error result)
regardless of the outcomes of the RTC and watchdog sub-reads; each of those
two optional blocks independently holds its value on success and is omitted
(kept at its initial empty value) when its own sub-read raises. -/
theorem C8_optional_subreads_independent :
    ∀ (env : Env) (stack : Int) (ver : String) (t : Nat)
      (uo ui r1 r10 : Int → Rat) (cm : Nat) (cs cc ce : Int → Int)
      (pv rv ct : Rat),
      env.hasMegabas = true →
      env.getVer stack = .ok ver →
      env.getTriacs stack = .ok t →
      (∀ ch ∈ chan4, env.getUOut stack ch = .ok (uo ch)) →
      (∀ ch ∈ chan8i, env.getUIn stack ch = .ok (ui ch)) →
      (∀ ch ∈ chan8i, env.getRIn1K stack ch = .ok (r1 ch)) →
      (∀ ch ∈ chan8i, env.getRIn10K stack ch = .ok (r10 ch)) →
      env.getContact stack = .ok cm →
      (∀ ch ∈ chan8i, env.getContactCh stack ch = .ok (cs ch)) →
      (∀ ch ∈ chan8i, env.getContactCounter stack ch = .ok (cc ch)) →
      (∀ ch ∈ chan8i, env.getContactCountEdge stack ch = .ok (ce ch)) →
      env.getInVolt stack = .ok pv →
      env.getRaspVolt stack = .ok rv →
      env.getCpuTemp stack = .ok ct →
      ∃ st, get_megabas_status env stack = .ok (.status st)
        ∧ (∀ v, rtcRead env stack = .ok v → st.rtc = some v)
        ∧ (∀ e, rtcRead env stack = .error e → st.rtc = none)
        ∧ (∀ v, wdtRead env stack = .ok v → st.watchdog = some v)
        ∧ (∀ e, wdtRead env stack = .error e → st.watchdog = none) := by
  intro env stack ver t uo ui r1 r10 cm cs cc ce pv rv ct hm hv ht huo hui
    hr1 hr10 hc hcs hcc hce hpv hrv hct
  refine ⟨{ stack := stack
            firmware := ver
            triacs := unpackMask t 4
            analog_outputs := chan4.map uo
            configurable_inputs := chan8i.map (fun ch => (ui ch, r1 ch, r10 ch))
            dry_contacts := chan8i.map (fun ch => (cs ch, cc ch, ce ch))
            sensors := (pv, rv, ct)
            rtc := tryOpt (rtcRead env stack)
            watchdog := tryOpt (wdtRead env stack) }, ?_, ?_, ?_, ?_, ?_⟩
  · rw [get_megabas_status, if_neg (by simp [hm])]
    rw [mbStatusBody_ok env stack ver t uo ui r1 r10 cm cs cc ce pv rv ct
      hv ht huo hui hr1 hr10 hc hcs hcc hce hpv hrv hct]
  · intro v hv'
    show tryOpt (rtcRead env stack) = some v
    rw [hv']
    rfl
  · intro e he
    show tryOpt (rtcRead env stack) = none
    rw [he]
    rfl
  · intro v hv'
    show tryOpt (wdtRead env stack) = some v
    rw [hv']
    rfl
  · intro e he
    show tryOpt (wdtRead env stack) = none
    rw [he]
    rfl

/-- Witness for C8: every mandatory read succeeds, the RTC read raises and
the watchdog reads succeed — the status call still returns a status object,
with the RTC block omitted and the watchdog block present. -/
theorem C8_witness :
    ∃ st, get_megabas_status envC8 0 = .ok (.status st)
      ∧ st.rtc = none ∧ st.watchdog = some (10, 60, 5, 2) := by
  obtain ⟨st, hok, _, hrErr, hwOk, _⟩ :=
    C8_optional_subreads_independent envC8 0 "4.09" 5 (fun _ => 3) (fun _ => 2)
      (fun _ => 100) (fun _ => 1000) 0 (fun _ => 1) (fun _ => 7) (fun _ => 0)
      24 5 45 rfl rfl rfl (fun _ _ => rfl) (fun _ _ => rfl) (fun _ _ => rfl)
      (fun _ _ => rfl) rfl (fun _ _ => rfl) (fun _ _ => rfl) (fun _ _ => rfl)
      rfl rfl rfl
  exact ⟨st, hok, hrErr "rtc read failed" rfl, hwOk (10, 60, 5, 2) rfl⟩

/-! ## C9: one targeted write, sibling channels untouched -/

/-- A validated branch that issues one driver write and returns `v` leaves
exactly that one call in the trace and applies that call's state update. -/
theorem tryCatch_call_ok {c : DrvCall} (hc : c.fail = none) (v : Val)
    (h : String → PyM Val) (w : World) :
    PyM.tryCatch (runCall c >>= fun _ => PyM.pure v) h w
      = (.ok v, c.upd { w with calls := w.calls ++ [c.ev] }) := by
  unfold PyM.tryCatch
  rw [pymBind_apply]
  unfold runCall
  rw [hc]
  rfl

/-- C9 counterexample: a successful `set_relay` call on the available board
type "megabas" targeting channel 7 issues no driver write at all — the
returned world still has an empty invocation trace — refuting the claim
that every successful set call issues exactly one targeted write. -/
theorem C9_cex_set_relay_no_write :
    set_relay envM "megabas" 0 7 true w0
      = (.ok (.vObj [("success", .vBool true), ("channel", .vInt 7),
          ("state", .vBool true)]), w0)
    ∧ w0.calls = [] := ⟨rfl, rfl⟩

/-- C9 amended: every successful `set_megabas_output` (analog or triac),
every successful `set_relay` on the relay board types "8relind"/"16relind",
and every successful `set_universal_output` issues exactly one driver write,
addressed to the targeted channel: the trace grows by that single event, the
targeted (stack, channel) cell takes the written value, every other channel
cell of that board family and all other board families are unchanged.  (A
successful `set_relay` on any other available board type issues no write at
all — see the counterexample and C10 — which the original claim excluded.) -/
theorem C9_amended_single_targeted_write :
    ∀ (env : Env) (w : World) (stack ch : Int) (v : Rat) (state : Bool),
      (env.hasMegabas = true → 1 ≤ ch → ch ≤ 4 → 0 ≤ v → v ≤ 10 →
        env.setUOutFail stack ch v = none →
        ∃ w', set_megabas_output env stack "analog" ch v w
            = (.ok (.vObj [("success", .vBool true), ("channel", .vInt ch),
                ("value", .vRat v)]), w')
          ∧ w'.calls = w.calls ++ [CallEv.setUOut stack ch v]
          ∧ (∀ s' c', ¬(s' = stack ∧ c' = ch) → w'.uout s' c' = w.uout s' c')
          ∧ w'.uout stack ch = v
          ∧ w'.triac = w.triac ∧ w'.relay8 = w.relay8
          ∧ w'.relay16 = w.relay16 ∧ w'.uout16 = w.uout16)
      ∧ (env.hasMegabas = true → 1 ≤ ch → ch ≤ 4 →
        env.setTriacFail stack ch (pyTrunc v) = none →
        ∃ w', set_megabas_output env stack "triac" ch v w
            = (.ok (.vObj [("success", .vBool true), ("channel", .vInt ch),
                ("value", .vBool (decide (v ≠ 0)))]), w')
          ∧ w'.calls = w.calls ++ [CallEv.setTriac stack ch (pyTrunc v)]
          ∧ (∀ s' c', ¬(s' = stack ∧ c' = ch) → w'.triac s' c' = w.triac s' c')
          ∧ w'.triac stack ch = pyTrunc v
          ∧ w'.uout = w.uout ∧ w'.relay8 = w.relay8
          ∧ w'.relay16 = w.relay16 ∧ w'.uout16 = w.uout16)
      ∧ (env.has8relind = true → 1 ≤ ch → ch ≤ 8 →
        env.relSet8Fail stack ch (if state then 1 else 0) = none →
        ∃ w', set_relay env "8relind" stack ch state w
            = (.ok (.vObj [("success", .vBool true), ("channel", .vInt ch),
                ("state", .vBool state)]), w')
          ∧ w'.calls = w.calls ++ [CallEv.relSet8 stack ch (if state then 1 else 0)]
          ∧ (∀ s' c', ¬(s' = stack ∧ c' = ch) → w'.relay8 s' c' = w.relay8 s' c')
          ∧ w'.relay8 stack ch = (if state then 1 else 0)
          ∧ w'.uout = w.uout ∧ w'.triac = w.triac
          ∧ w'.relay16 = w.relay16 ∧ w'.uout16 = w.uout16)
      ∧ (env.has16relind = true → 1 ≤ ch → ch ≤ 16 →
        env.relSet16Fail stack ch (if state then 1 else 0) = none →
        ∃ w', set_relay env "16relind" stack ch state w
            = (.ok (.vObj [("success", .vBool true), ("channel", .vInt ch),
                ("state", .vBool state)]), w')
          ∧ w'.calls = w.calls ++ [CallEv.relSet16 stack ch (if state then 1 else 0)]
          ∧ (∀ s' c', ¬(s' = stack ∧ c' = ch) → w'.relay16 s' c' = w.relay16 s' c')
          ∧ w'.relay16 stack ch = (if state then 1 else 0)
          ∧ w'.uout = w.uout ∧ w'.triac = w.triac
          ∧ w'.relay8 = w.relay8 ∧ w'.uout16 = w.uout16)
      ∧ (env.has16uout = true → 1 ≤ ch → ch ≤ 16 → 0 ≤ v → v ≤ 10 →
        env.writeU0_10OutFail stack ch v = none →
        ∃ w', set_universal_output env stack ch v w
            = (.ok (.vObj [("success", .vBool true), ("channel", .vInt ch),
                ("value", .vRat v), ("type", .vStr "0-10V Output")]), w')
          ∧ w'.calls = w.calls ++ [CallEv.writeU0_10Out stack ch v]
          ∧ (∀ s' c', ¬(s' = stack ∧ c' = ch) → w'.uout16 s' c' = w.uout16 s' c')
          ∧ w'.uout16 stack ch = v
          ∧ w'.uout = w.uout ∧ w'.triac = w.triac
          ∧ w'.relay8 = w.relay8 ∧ w'.relay16 = w.relay16) := by
  intro env w stack ch v state
  refine ⟨?_, ?_, ?_, ?_, ?_⟩
  · intro hm hc1 hc2 hv0 hv10 hf
    rw [set_megabas_output, if_neg (by simp [hm]), if_pos rfl,
      if_neg (by omega), if_neg (by push_neg; exact ⟨hv0, hv10⟩)]
    refine ⟨_, tryCatch_call_ok hf _ _ w, rfl, ?_, ?_, rfl, rfl, rfl, rfl⟩
    · intro s' c' hne
      simp [setUOutCall, upd2, hne]
    · simp [setUOutCall, upd2]
  · intro hm hc1 hc2 hf
    rw [set_megabas_output, if_neg (by simp [hm]), if_neg (by decide),
      if_pos rfl, if_neg (by omega)]
    refine ⟨_, tryCatch_call_ok hf _ _ w, rfl, ?_, ?_, rfl, rfl, rfl, rfl⟩
    · intro s' c' hne
      simp [setTriacCall, upd2, hne]
    · simp [setTriacCall, upd2]
  · intro hm hc1 hc2 hf
    rw [set_relay, if_neg (by simp [Env.hasBoard, hm]), if_pos rfl,
      if_neg (by omega)]
    refine ⟨_, tryCatch_call_ok hf _ _ w, rfl, ?_, ?_, rfl, rfl, rfl, rfl⟩
    · intro s' c' hne
      simp [relSet8Call, upd2, hne]
    · simp [relSet8Call, upd2]
  · intro hm hc1 hc2 hf
    rw [set_relay, if_neg (by simp [Env.hasBoard, hm]), if_neg (by decide),
      if_pos rfl, if_neg (by omega)]
    refine ⟨_, tryCatch_call_ok hf _ _ w, rfl, ?_, ?_, rfl, rfl, rfl, rfl⟩
    · intro s' c' hne
      simp [relSet16Call, upd2, hne]
    · simp [relSet16Call, upd2]
  · intro hm hc1 hc2 hv0 hv10 hf
    rw [set_universal_output, if_neg (by simp [hm]), if_neg (by omega),
      if_neg (by push_neg; exact ⟨hv0, hv10⟩)]
    refine ⟨_, tryCatch_call_ok hf _ _ w, rfl, ?_, ?_, rfl, rfl, rfl, rfl⟩
    · intro s' c' hne
      simp [writeU0_10OutCall, upd2, hne]
    · simp [writeU0_10OutCall, upd2]

/-- Witness for C9 (amended): a successful analog write to channel 2 leaves
exactly one setUOut event in the trace and does not disturb channel 1. -/
theorem C9_witness :
    ∃ w', set_megabas_output okEnv 0 "analog" 2 5 w0
        = (.ok (.vObj [("success", .vBool true), ("channel", .vInt 2),
            ("value", .vRat 5)]), w')
      ∧ w'.calls = [CallEv.setUOut 0 2 5]
      ∧ w'.uout 0 1 = w0.uout 0 1 := by
  obtain ⟨w', hres, hcalls, hframe, hpoint, h5, h6, h7, h8⟩ :=
    (C9_amended_single_targeted_write okEnv w0 0 2 5 true).1 rfl (by decide)
      (by decide) (by decide) (by decide) rfl
  refine ⟨w', hres, ?_, hframe 0 1 (by decide)⟩
  rw [hcalls]
  rfl

/-! ## C3: argument-parsing errors -/

/-- C3 counterexample: an invocation whose positional-argument parse raises
(`status megabas x`, non-integer stack) does NOT exit with a non-JSON
message: the `int()` exception is raised inside the `try` of `main`,
caught by its blanket `except`, printed as the JSON envelope
`{"error": message}`, and the process exits with code 1. -/
theorem C3_cex_parse_error_json_envelope :
    mainRun envNone ["status", "megabas", "x"] w0
      = (.jsonOut (.errEnvelope "invalid literal for int() with base 10: x") 1, w0)
    ∧ (mainRun envNone ["status", "megabas", "x"] w0).1
        ≠ .crash "invalid literal for int() with base 10: x" :=
  ⟨rfl, fun h => ProcOut.noConfusion h⟩

/-- C3 amended: for every invocation whose positional-argument parsing (or
any other step of the dispatch body) raises, the exception is caught by
`main`'s top-level handler: the process prints the JSON error envelope
`{"error": message}` and exits with code 1 (not a non-JSON message). -/
theorem C3_amended_parse_error_caught :
    ∀ (env : Env) (argv : List String) (w : World) (e : String) (w2 : World),
      argv ≠ [] → mainBody env argv w = (.error e, w2) →
      mainRun env argv w = (.jsonOut (.errEnvelope e) 1, w2) := by
  intro env argv w e w2 hne hb
  rw [mainRun, if_neg hne, hb]

/-- Witness for C3 (amended): a non-numeric channel argument to
`set_output` lands in the JSON error envelope with exit code 1. -/
theorem C3_witness :
    mainRun okEnv ["set_output", "0", "analog", "two", "5"] w0
      = (.jsonOut (.errEnvelope "invalid literal for int() with base 10: two") 1,
          w0) :=
  C3_amended_parse_error_caught okEnv ["set_output", "0", "analog", "two", "5"]
    w0 "invalid literal for int() with base 10: two" w0
    (List.cons_ne_nil _ _) rfl
